import Mathlib

/-!
Verification development for the FareShare ride-sharing backend
(seat-inventory and status-consistency core).

The definitions below are a shallow embedding of the Python source:
  - src/backend/src/routes/booking.py  (create_booking, update_booking_status,
    cancel_booking, update_ride_availability)
  - src/backend/src/routes/rides.py    (create_ride, update_ride, delete_ride,
    update_ride_status, convert_ride_to_response, search_rides)
  - src/backend/src/models/ride.py     (table CHECK constraints)
  - src/backend/src/schemas/booking.py, src/backend/src/schemas/ride.py
    (pydantic input validation)

The database is a pair of rows lists; each HTTP handler becomes a function
from state to `Except ApiError DBState`.  An `ApiError` result models an
aborted request: the transaction is rolled back, so the state is unchanged.
Postgres CHECK constraints are evaluated at commit on every written ride row
(`commitRide`); a violation aborts the transaction.
-/

namespace FareShare

/-- Ride lifecycle status: the five values allowed by the `check_ride_status`
table constraint (src/backend/src/models/ride.py, lines 219-222). -/
inductive RideStatus where
  | requested
  | «open»
  | full
  | cancelled
  | completed
deriving DecidableEq, Repr

/-- Booking status (schemas/booking.py, `BookingStatus` enum). -/
inductive BookingStatus where
  | pending
  | confirmed
  | completed
  | cancelled
deriving DecidableEq, Repr

/-- Display text of a ride status, used in error message interpolation. -/
def rideStatusText : RideStatus → String
  | .requested => "requested"
  | .«open» => "open"
  | .full => "full"
  | .cancelled => "cancelled"
  | .completed => "completed"

/-- A row of the rides table (src/backend/src/models/ride.py).  Ids and the
departure timestamp are integers; money (SQL `Numeric(6,2)`, exact) is an
integer number of cents.
Fields not touched by the seat-inventory core (labels, geometry, vehicle
descriptors, notes) are omitted: no claim reads them and no handler lets them
interact with seats or status. -/
structure Ride where
  id : Nat
  driver_id : Nat
  departure_time : Int
  seats_total : Int
  seats_available : Int
  price_share : Int
  status : RideStatus
deriving DecidableEq, Repr

/-- A row of the bookings table.  Modelled from the spec: the file
src/models/booking.py is imported by the routes but is not present under
src/; the fields follow spec section 3 ("Booking") and every use in
src/backend/src/routes/booking.py (id, passenger_id, ride_id, seats_reserved,
amount_paid, status). -/
structure Booking where
  id : Nat
  passenger_id : Nat
  ride_id : Nat
  seats_reserved : Int
  amount_paid : Int
  status : BookingStatus
deriving DecidableEq, Repr

/-- The persistent store: the rides and bookings tables. -/
structure DBState where
  rides : List Ride
  bookings : List Booking
deriving DecidableEq, Repr

/-- Error responses raised by the handlers (FastAPI HTTPException status
codes), plus the two failure modes that happen outside the handler body:
pydantic schema rejection (`unprocessable`, HTTP 422) and a Postgres CHECK
violation at commit (`integrityError`). -/
inductive ApiError where
  | notFound (detail : String)
  | badRequest (detail : String)
  | forbidden (detail : String)
  | conflict (detail : String)
  | unprocessable (detail : String)
  | integrityError (constraint : String)
deriving DecidableEq, Repr

/-- `SELECT * FROM rides WHERE id = rid` (scalar_one_or_none). -/
def findRide (s : DBState) (rid : Nat) : Option Ride :=
  s.rides.find? (fun r => r.id == rid)

/-- `SELECT * FROM bookings WHERE id = bid` (scalar_one_or_none). -/
def findBooking (s : DBState) (bid : Nat) : Option Booking :=
  s.bookings.find? (fun b => b.id == bid)

/-- UPDATE of a ride row (in-session mutation flushed at commit). -/
def setRide (s : DBState) (r : Ride) : DBState :=
  { s with rides := s.rides.map (fun x => if x.id == r.id then r else x) }

/-- UPDATE of a booking row. -/
def setBooking (s : DBState) (b : Booking) : DBState :=
  { s with bookings := s.bookings.map (fun x => if x.id == b.id then b else x) }

/-- INSERT of a booking row (`db.add(new_booking)`). -/
def addBooking (s : DBState) (b : Booking) : DBState :=
  { s with bookings := s.bookings ++ [b] }

/-- The rides table CHECK constraints `check_seats_range`,
`check_seats_positive` and `check_price_positive`
(src/backend/src/models/ride.py, lines 206-232).  The status CHECK is
enforced by the `RideStatus` type itself. -/
def rideChecks (r : Ride) : Bool :=
  decide (0 ≤ r.seats_available) && decide (r.seats_available ≤ r.seats_total) &&
    decide (0 < r.seats_total) && decide (0 ≤ r.price_share)

/-- `await db.commit()` for a transaction whose written ride row is `r` and
whose tentative post-state is `s'`: Postgres evaluates the rides CHECK
constraints on the written row; a violation aborts and rolls back the whole
transaction, so the caller's state is unchanged. -/
def commitRide (r : Ride) (s' : DBState) : Except ApiError DBState :=
  if rideChecks r then .ok s' else .error (.integrityError "check_seats_range")

/-- `Booking.status.in_(["pending", "confirmed"])`: the statuses that count
as an active seat claim. -/
def isActive : BookingStatus → Bool
  | .pending => true
  | .confirmed => true
  | .completed => false
  | .cancelled => false

/-- The aggregate `SELECT SUM(seats_reserved) FROM bookings WHERE ride_id = rid
AND status IN ('pending','confirmed')` of `update_ride_availability`
(src/backend/src/routes/booking.py, lines 100-110); also the right-hand side
of the spec's seat-reconciliation invariant. -/
def total_booked (bs : List Booking) (rid : Nat) : Int :=
  ((bs.filter (fun b => b.ride_id == rid && isActive b.status)).map
    Booking.seats_reserved).sum

/-- Per-booking contribution to `total_booked`, used to reason about the sum. -/
def bookingContrib (rid : Nat) (b : Booking) : Int :=
  if b.ride_id == rid && isActive b.status then b.seats_reserved else 0

/-- The spec's reconciliation formula for one ride:
`seats_available == seats_total − Σ(seats_reserved | status ∈ {pending, confirmed})`. -/
def seatsFormula (bs : List Booking) (r : Ride) : Bool :=
  r.seats_available == r.seats_total - total_booked bs r.id

/-- Spec section 8, first two invariants' reconciliation part: every ride
satisfies the formula. -/
def seatsInvariant (s : DBState) : Bool :=
  s.rides.all (fun r => seatsFormula s.bookings r)

/-- Every ride row passes the table CHECK constraints. -/
def ridesOk (s : DBState) : Bool :=
  s.rides.all rideChecks

/-- `BookingCreate.validate_seats` (src/backend/src/schemas/booking.py,
lines 41-49): pydantic rejects the request before the handler runs. -/
def validate_seats (v : Int) : Except ApiError Unit :=
  if v < 1 then .error (.unprocessable "Must reserve at least 1 seat")
  else if v > 10 then .error (.unprocessable "Cannot reserve more than 10 seats")
  else .ok ()

/-- `create_booking` (src/backend/src/routes/booking.py, lines 126-243),
parameterised by the session's read snapshot: every SELECT reads `snap`, the
INSERT/UPDATE is applied to `cur`.  A serial request has `snap = cur`
(`create_booking` below); two interleaved requests each read the state
preceding both writes, which is exactly how two concurrent SQLAlchemy
sessions behave (no row lock is taken, and `ride.seats_available -= n`
computes from the value loaded at SELECT time). -/
def create_booking_session (snap cur : DBState) (u rid : Nat) (sr : Int)
    (newId : Nat) : Except ApiError DBState :=
  match validate_seats sr with
  | .error e => .error e
  | .ok _ =>
    match findRide snap rid with
    | none => .error (.notFound "Ride not found")
    | some ride =>
      if ride.driver_id == u then
        .error (.badRequest "You cannot book your own ride")
      else if ride.status == .completed || ride.status == .cancelled then
        .error (.badRequest ("Cannot book a " ++ rideStatusText ride.status ++ " ride"))
      else if snap.bookings.any
          (fun b => b.ride_id == rid && b.passenger_id == u && isActive b.status) then
        .error (.conflict "You already have an active booking for this ride")
      else if sr > ride.seats_available then
        .error (.badRequest ("Not enough seats available. Requested: " ++
          toString sr ++ ", Available: " ++ toString ride.seats_available))
      else
        let new_booking : Booking :=
          { id := newId, passenger_id := u, ride_id := rid,
            seats_reserved := sr, amount_paid := sr * ride.price_share,
            status := .pending }
        let ride1 : Ride := { ride with seats_available := ride.seats_available - sr }
        let ride2 : Ride :=
          if ride1.seats_available ≤ 0 then { ride1 with status := .full } else ride1
        let ride3 : Ride :=
          if ride2.status == .requested && ride2.seats_available > 0 then
            { ride2 with status := .«open» }
          else ride2
        commitRide ride3 (addBooking (setRide cur ride3) new_booking)

/-- `POST /bookings` handled serially: snapshot and write target coincide. -/
def create_booking (s : DBState) (u rid : Nat) (sr : Int) (newId : Nat) :
    Except ApiError DBState :=
  create_booking_session s s u rid sr newId

/-- The role/state gates of `update_booking_status`
(src/backend/src/routes/booking.py, lines 491-531). -/
def booking_transition_gate (current : BookingStatus) (is_driver : Bool)
    (new_status : BookingStatus) : Except ApiError Unit :=
  match new_status with
  | .confirmed =>
    if !is_driver then .error (.forbidden "Only the driver can confirm bookings")
    else if current != .pending then
      .error (.badRequest "Can only confirm pending bookings")
    else .ok ()
  | .completed =>
    if !is_driver then
      .error (.forbidden "Only the driver can mark bookings as completed")
    else if current != .confirmed then
      .error (.badRequest "Can only complete confirmed bookings")
    else .ok ()
  | .cancelled => .ok ()
  | .pending => .error (.badRequest "Cannot set status back to pending")

/-- `PATCH /bookings/{id}/status` (src/backend/src/routes/booking.py,
lines 414-553).  The booking is fetched through an inner join with its ride,
so a booking whose ride row is missing behaves as not found. -/
def update_booking_status (s : DBState) (bid : Nat) (new_status : BookingStatus)
    (u : Nat) : Except ApiError DBState :=
  match findBooking s bid with
  | none => .error (.notFound "Booking not found")
  | some booking =>
    match findRide s booking.ride_id with
    | none => .error (.notFound "Booking not found")
    | some ride =>
      let is_passenger := booking.passenger_id == u
      let is_driver := ride.driver_id == u
      if !(is_passenger || is_driver) then
        .error (.forbidden "You can only update your own bookings or bookings for your rides")
      else if booking.status == .completed then
        .error (.badRequest "Cannot modify completed bookings")
      else if booking.status == .cancelled then
        .error (.badRequest "Cannot modify cancelled bookings")
      else
        match booking_transition_gate booking.status is_driver new_status with
        | .error e => .error e
        | .ok _ =>
          let old_status := booking.status
          let booking1 : Booking := { booking with status := new_status }
          let s1 := setBooking s booking1
          if new_status == .cancelled &&
              (old_status == .pending || old_status == .confirmed) then
            let ride1 : Ride :=
              { ride with seats_available := ride.seats_available + booking.seats_reserved }
            let ride2 : Ride :=
              if ride1.status == .full && ride1.seats_available > 0 then
                { ride1 with status :=
                    if ride1.status != .requested then .«open» else .requested }
              else ride1
            commitRide ride2 (setRide s1 ride2)
          else
            .ok s1

/-- `DELETE /bookings/{id}` (src/backend/src/routes/booking.py,
lines 558-628). -/
def cancel_booking (s : DBState) (bid : Nat) (u : Nat) :
    Except ApiError DBState :=
  match findBooking s bid with
  | none => .error (.notFound "Booking not found")
  | some booking =>
    match findRide s booking.ride_id with
    | none => .error (.notFound "Booking not found")
    | some ride =>
      if !(booking.passenger_id == u || ride.driver_id == u) then
        .error (.forbidden "You can only cancel your own bookings or bookings for your rides")
      else if booking.status == .completed then
        .error (.badRequest "Cannot cancel completed bookings")
      else if booking.status == .cancelled then
        .error (.badRequest "Booking is already cancelled")
      else
        let booking1 : Booking := { booking with status := .cancelled }
        let ride1 : Ride :=
          { ride with seats_available := ride.seats_available + booking.seats_reserved }
        let ride2 : Ride :=
          if ride1.status == .full && ride1.seats_available > 0 then
            { ride1 with status :=
                if ride1.status != .requested then .«open» else .requested }
          else ride1
        commitRide ride2 (setRide (setBooking s booking1) ride2)

/-- `RideStatusUpdate.validate_status_transition`
(src/backend/src/schemas/ride.py, lines 444-455): only the two manual
targets pass pydantic validation. -/
def validate_ride_status_target (v : RideStatus) : Except ApiError Unit :=
  if v == .cancelled || v == .completed then .ok ()
  else .error (.unprocessable "Can only manually set status to: cancelled, completed")

/-- `PATCH /rides/{id}/status` (src/backend/src/routes/rides.py,
lines 823-894).  Note: the handler performs no check of the ride's current
status, and it overwrites the status of every booking of the ride,
whatever that booking's current status is. -/
def update_ride_status (s : DBState) (rid : Nat) (target : RideStatus)
    (u : Nat) : Except ApiError DBState :=
  match validate_ride_status_target target with
  | .error e => .error e
  | .ok _ =>
    match findRide s rid with
    | none => .error (.notFound "Ride not found")
    | some ride =>
      if !(ride.driver_id == u) then
        .error (.forbidden "You can only update your own rides")
      else
        let ride1 : Ride := { ride with status := target }
        let s1 := setRide s ride1
        let s2 : DBState :=
          if target == .completed then
            { s1 with bookings := s1.bookings.map (fun b =>
                if b.ride_id == rid then { b with status := .completed } else b) }
          else if target == .cancelled then
            { s1 with bookings := s1.bookings.map (fun b =>
                if b.ride_id == rid then { b with status := .cancelled } else b) }
          else s1
        commitRide ride1 s2

/-- `DELETE /rides/{id}` (src/backend/src/routes/rides.py, lines 774-818):
soft-cancel when any booking exists, physical delete otherwise (the ORM
cascade would also remove the ride's bookings, of which there are none in
that branch). -/
def delete_ride (s : DBState) (rid : Nat) (u : Nat) : Except ApiError DBState :=
  match findRide s rid with
  | none => .error (.notFound "Ride not found")
  | some ride =>
    if !(ride.driver_id == u) then
      .error (.forbidden "You can only delete your own rides")
    else if !(s.bookings.filter (fun b => b.ride_id == rid)).isEmpty then
      let ride1 : Ride := { ride with status := .cancelled }
      commitRide ride1 (setRide s ride1)
    else
      .ok { rides := s.rides.filter (fun r => !(r.id == rid)),
            bookings := s.bookings.filter (fun b => !(b.ride_id == rid)) }

/-- `RideUpdate.validate_seats` (src/backend/src/schemas/ride.py,
lines 264-272). -/
def validate_update_seats (v : Option Int) : Except ApiError Unit :=
  match v with
  | none => .ok ()
  | some n =>
    if n < 1 then .error (.unprocessable "Must have at least 1 seat")
    else if n > 10 then .error (.unprocessable "Cannot exceed 10 seats")
    else .ok ()

/-- `PATCH /rides/{id}` (src/backend/src/routes/rides.py, lines 672-769),
restricted to the `seats_total` field of the patch (the other patch fields
are labels, coordinates, price, schedule and vehicle data, none of which
interact with seats or status).  Faithful to the source's order of
operations: the generic `setattr` loop writes the new `seats_total` first,
and only then is `seats_booked = ride.seats_total - ride.seats_available`
computed, so it reads the already-updated total. -/
def update_ride (s : DBState) (rid : Nat) (seats_total_patch : Option Int)
    (u : Nat) : Except ApiError DBState :=
  match validate_update_seats seats_total_patch with
  | .error e => .error e
  | .ok _ =>
    match findRide s rid with
    | none => .error (.notFound "Ride not found")
    | some ride =>
      if !(ride.driver_id == u) then
        .error (.forbidden "You can only update your own rides")
      else if ride.status == .completed || ride.status == .cancelled then
        .error (.badRequest ("Cannot update " ++ rideStatusText ride.status ++ " rides"))
      else
        match seats_total_patch with
        | none => .ok s
        | some new_total =>
          let ride1 : Ride := { ride with seats_total := new_total }
          let seats_booked := ride1.seats_total - ride1.seats_available
          let ride2 : Ride := { ride1 with seats_available := new_total - seats_booked }
          if ride2.seats_available < 0 then
            .error (.badRequest "Cannot reduce total seats below number of booked seats")
          else
            commitRide ride2 (setRide s ride2)

/-- Ride kind as selected in the creation payload (schemas/ride.py,
`RideType`). -/
inductive RideType where
  | offer
  | request
deriving DecidableEq, Repr

/-- `RideCreate` validators (src/backend/src/schemas/ride.py, lines 130-156),
in declaration order, with `now` the clock reading of the departure check. -/
def validate_ride_create (seats_total : Int) (price_share : Int)
    (departure_time now : Int) : Except ApiError Unit :=
  if departure_time < now then
    .error (.unprocessable "Departure time must be in the future")
  else if seats_total < 1 then .error (.unprocessable "Must have at least 1 seat")
  else if seats_total > 10 then .error (.unprocessable "Cannot exceed 10 seats")
  else if price_share < 0 then .error (.unprocessable "Price cannot be negative")
  else if price_share > 999999 then
    .error (.unprocessable "Price cannot exceed $9,999.99")
  else .ok ()

/-- `POST /rides` (src/backend/src/routes/rides.py, lines 131-229). -/
def create_ride (s : DBState) (u newId : Nat) (rt : RideType) (seats_total : Int)
    (price_share : Int) (departure_time now : Int) : Except ApiError DBState :=
  match validate_ride_create seats_total price_share departure_time now with
  | .error e => .error e
  | .ok _ =>
    let ride_status : RideStatus := if rt == .request then .requested else .«open»
    let new_ride : Ride :=
      { id := newId, driver_id := u, departure_time := departure_time,
        seats_total := seats_total, seats_available := seats_total,
        price_share := price_share, status := ride_status }
    commitRide new_ride { s with rides := s.rides ++ [new_ride] }

/-- The derived `ride_type` response field: the expression
`"request" if ride.status == "requested" else "offer"` appearing in
`convert_ride_to_response` (rides.py line 97), `search_rides` (line 300) and
the nearby search (line 477); the kind is not stored anywhere on the row. -/
def ride_type (r : Ride) : String :=
  if r.status == .requested then "request" else "offer"

/-- The state-mutating operations of the booking/ride core, for claims that
quantify over "every operation". -/
inductive Op where
  | createRide (u newId : Nat) (rt : RideType) (seats_total : Int)
      (price_share : Int) (departure_time now : Int)
  | createBooking (u rid : Nat) (sr : Int) (newId : Nat)
  | updateRide (rid : Nat) (seats_total_patch : Option Int) (u : Nat)
  | updateRideStatus (rid : Nat) (target : RideStatus) (u : Nat)
  | deleteRide (rid u : Nat)
  | updateBookingStatus (bid : Nat) (target : BookingStatus) (u : Nat)
  | cancelBooking (bid u : Nat)
deriving DecidableEq, Repr

/-- Dispatch an operation against the store. -/
def Op.apply : Op → DBState → Except ApiError DBState
  | .createRide u nid rt st pr dep now, s => create_ride s u nid rt st pr dep now
  | .createBooking u rid sr nid, s => create_booking s u rid sr nid
  | .updateRide rid patch u, s => update_ride s rid patch u
  | .updateRideStatus rid target u, s => update_ride_status s rid target u
  | .deleteRide rid u, s => delete_ride s rid u
  | .updateBookingStatus bid target u, s => update_booking_status s bid target u
  | .cancelBooking bid u, s => cancel_booking s bid u

/-- The operations whose seat bookkeeping the Reconciler claim survives:
booking creation, booking cancellation, and the booking status updates other
than completion. -/
def reconcilingOp : Op → Bool
  | .createBooking _ _ _ _ => true
  | .cancelBooking _ _ => true
  | .updateBookingStatus _ target _ => target != .completed
  | _ => false

/-- The (source status, target status) pairs accepted by the booking status
transition table. -/
def allowedBookingTransition : BookingStatus → BookingStatus → Bool
  | .pending, .confirmed => true
  | .pending, .cancelled => true
  | .confirmed, .completed => true
  | .confirmed, .cancelled => true
  | _, _ => false

/-- Targets that only the ride's driver may set. -/
def driverOnlyTarget : BookingStatus → Bool
  | .confirmed => true
  | .completed => true
  | _ => false

/-- HTTP 403 responses: the spec's `PermissionError` kind. -/
def isPermissionError : ApiError → Bool
  | .forbidden _ => true
  | _ => false

/-- HTTP 400 responses raised by the status-transition validation: the
spec's `InvalidStateError` kind in these handlers. -/
def isInvalidStateError : ApiError → Bool
  | .badRequest _ => true
  | _ => false

/-! ## Helper lemmas -/

theorem commitRide_ok {r : Ride} {s s' : DBState} (h : commitRide r s = .ok s') :
    rideChecks r = true ∧ s' = s := by
  by_cases hc : rideChecks r = true
  · refine ⟨hc, ?_⟩
    simp only [commitRide, hc, if_true] at h
    exact (Except.ok.injEq _ _).mp h |>.symm
  · simp only [commitRide, hc, if_false, Bool.false_eq_true] at h
    exact absurd h (by simp)

theorem find_replace {α : Type} (key : α → Nat) (l : List α) (i : Nat) (b b1 : α)
    (h : l.find? (fun x => key x == i) = some b) (hid : key b1 = key b) :
    (l.map (fun x => if key x == key b1 then b1 else x)).find?
      (fun x => key x == i) = some b1 := by
  induction l with
  | nil => simp at h
  | cons a t ih =>
    have hbi : key b = i := by
      have := List.find?_some h
      simpa using this
    by_cases ha : key a = i
    · rw [List.find?_cons_of_pos _ (by simpa using ha)] at h
      have hab : a = b := by injection h
      subst hab
      have hcond : (key a == key b1) = true := by simp [hid]
      simp only [List.map_cons, hcond, if_true]
      apply List.find?_cons_of_pos
      simp [hid, hbi]
    · rw [List.find?_cons_of_neg _ (by simpa using ha)] at h
      have hcond : (key a == key b1) = false := by
        simp only [hid, beq_eq_false_iff_ne, ne_eq]
        intro hk
        exact ha (hk.trans hbi)
      simp only [List.map_cons, hcond, if_false]
      rw [List.find?_cons_of_neg _ (by simpa using ha)]
      exact ih h

theorem all_map_replace {α : Type} (p : α → Bool) (key : α → Nat) (l : List α)
    (r : α) (h : l.all p = true) (hr : p r = true) :
    (l.map (fun x => if key x == key r then r else x)).all p = true := by
  rw [List.all_eq_true] at h ⊢
  intro x hx
  rw [List.mem_map] at hx
  obtain ⟨y, hy, rfl⟩ := hx
  by_cases hk : (key y == key r) = true
  · simp only [hk, if_true]; exact hr
  · simp only [hk, if_false]; exact h y hy

theorem all_append_one {α : Type} (p : α → Bool) (l : List α) (r : α)
    (h : l.all p = true) (hr : p r = true) : (l ++ [r]).all p = true := by
  simp [List.all_append, h, hr]

theorem all_filter_sub {α : Type} (p q : α → Bool) (l : List α)
    (h : l.all p = true) : (l.filter q).all p = true := by
  rw [List.all_eq_true] at h ⊢
  intro x hx
  exact h x (List.mem_of_mem_filter hx)

theorem total_booked_nil (rid : Nat) : total_booked [] rid = 0 := rfl

theorem total_booked_cons (a : Booking) (t : List Booking) (rid : Nat) :
    total_booked (a :: t) rid = bookingContrib rid a + total_booked t rid := by
  by_cases h : (a.ride_id == rid && isActive a.status) = true
  · simp [total_booked, bookingContrib, List.filter_cons, h]
  · simp [total_booked, bookingContrib, List.filter_cons, h]

theorem total_booked_append (bs : List Booking) (b : Booking) (rid : Nat) :
    total_booked (bs ++ [b]) rid = total_booked bs rid + bookingContrib rid b := by
  induction bs with
  | nil =>
    simp only [List.nil_append, total_booked_cons, total_booked_nil]
    omega
  | cons a t ih =>
    simp only [List.cons_append, total_booked_cons, ih]
    omega

theorem map_replace_id {α : Type} (key : α → Nat) (t : List α) (i : Nat) (b1 : α)
    (h : ∀ x ∈ t, key x ≠ i) :
    t.map (fun x => if key x == i then b1 else x) = t := by
  induction t with
  | nil => rfl
  | cons a t ih =>
    have ha : ¬ ((key a == i) = true) := by
      simp only [beq_iff_eq]
      exact h a (by simp)
    simp only [List.map_cons]
    rw [if_neg ha, ih (fun x hx => h x (by simp [hx]))]

theorem total_booked_replace (bs : List Booking) (b0 b1 : Booking) (rid : Nat)
    (hnd : (bs.map Booking.id).Nodup) (hmem : b0 ∈ bs) (hid : b1.id = b0.id) :
    total_booked (bs.map (fun x => if x.id == b1.id then b1 else x)) rid =
      total_booked bs rid - bookingContrib rid b0 + bookingContrib rid b1 := by
  simp only [hid]
  induction bs with
  | nil => cases hmem
  | cons a t ih =>
    simp only [List.map_cons, List.nodup_cons] at hnd
    obtain ⟨hna, hnt⟩ := hnd
    rcases List.mem_cons.mp hmem with rfl | hmt
    · have hcond : (b0.id == b0.id) = true := by simp
      simp only [List.map_cons]
      rw [if_pos hcond]
      have hrest : t.map (fun x => if x.id == b0.id then b1 else x) = t := by
        apply map_replace_id Booking.id
        intro x hx hk
        exact hna (by rw [← hk]; exact List.mem_map_of_mem Booking.id hx)
      rw [hrest, total_booked_cons, total_booked_cons]
      omega
    · have hcond : ¬ ((a.id == b0.id) = true) := by
        simp only [beq_iff_eq]
        intro hk
        exact hna (by rw [hk]; exact List.mem_map_of_mem Booking.id hmt)
      simp only [List.map_cons]
      rw [if_neg hcond, total_booked_cons, total_booked_cons, ih hnt hmt]
      omega

theorem seatsInvariant_forall {s : DBState} :
    seatsInvariant s = true ↔
      ∀ r ∈ s.rides,
        r.seats_available = r.seats_total - total_booked s.bookings r.id := by
  simp [seatsInvariant, seatsFormula, List.all_eq_true]

theorem seatsInvariant_create (s : DBState) (ride r3 : Ride) (nb : Booking)
    (hfound : findRide s nb.ride_id = some ride)
    (hinv : seatsInvariant s = true)
    (hid : r3.id = ride.id) (htot : r3.seats_total = ride.seats_total)
    (hav : r3.seats_available = ride.seats_available - nb.seats_reserved)
    (hact : isActive nb.status = true) :
    seatsInvariant (addBooking (setRide s r3) nb) = true := by
  rw [seatsInvariant_forall] at hinv ⊢
  intro x hx
  simp only [addBooking, setRide] at hx ⊢
  rw [List.mem_map] at hx
  obtain ⟨y, hy, hxy⟩ := hx
  have hrideid : ride.id = nb.ride_id := by
    have := List.find?_some hfound
    simpa using this
  have hrmem : ride ∈ s.rides := List.mem_of_find?_eq_some hfound
  by_cases hk : (y.id == r3.id) = true
  · rw [if_pos hk] at hxy
    subst hxy
    rw [total_booked_append]
    have hcontrib : bookingContrib r3.id nb = nb.seats_reserved := by
      unfold bookingContrib
      rw [if_pos]
      rw [Bool.and_eq_true, beq_iff_eq]
      exact ⟨by rw [hid, hrideid], hact⟩
    rw [hcontrib, htot, hav, hid]
    have hform := hinv ride hrmem
    omega
  · rw [if_neg hk] at hxy
    subst hxy
    rw [total_booked_append]
    have hy3 : y.id ≠ r3.id := by simpa using hk
    have hcontrib : bookingContrib y.id nb = 0 := by
      unfold bookingContrib
      rw [if_neg]
      rw [Bool.and_eq_true, beq_iff_eq]
      rintro ⟨hcc, _⟩
      exact hy3 (by rw [hid, hrideid, hcc])
    rw [hcontrib]
    have hform := hinv y hy
    omega

theorem seatsInvariant_setBooking_sameContrib (s : DBState) (b0 b1 : Booking)
    (hnd : (s.bookings.map Booking.id).Nodup)
    (hinv : seatsInvariant s = true)
    (hmem : b0 ∈ s.bookings)
    (hid : b1.id = b0.id)
    (hsame : ∀ rid, bookingContrib rid b1 = bookingContrib rid b0) :
    seatsInvariant (setBooking s b1) = true := by
  rw [seatsInvariant_forall] at hinv ⊢
  intro x hx
  simp only [setBooking] at hx ⊢
  rw [total_booked_replace s.bookings b0 b1 x.id hnd hmem hid, hsame]
  have hform := hinv x hx
  omega

theorem seatsInvariant_cancel (s : DBState) (b0 b1 : Booking) (ride r2 : Ride)
    (hnd : (s.bookings.map Booking.id).Nodup)
    (hinv : seatsInvariant s = true)
    (hmem : b0 ∈ s.bookings)
    (hfound : findRide s b0.ride_id = some ride)
    (hid : b1.id = b0.id)
    (hact0 : isActive b0.status = true) (hact1 : isActive b1.status = false)
    (h2id : r2.id = ride.id) (h2tot : r2.seats_total = ride.seats_total)
    (h2av : r2.seats_available = ride.seats_available + b0.seats_reserved) :
    seatsInvariant (setRide (setBooking s b1) r2) = true := by
  rw [seatsInvariant_forall] at hinv ⊢
  intro x hx
  simp only [setRide, setBooking] at hx ⊢
  rw [List.mem_map] at hx
  obtain ⟨y, hy, hxy⟩ := hx
  have hrideid : ride.id = b0.ride_id := by
    have := List.find?_some hfound
    simpa using this
  have hrmem : ride ∈ s.rides := List.mem_of_find?_eq_some hfound
  by_cases hk : (y.id == r2.id) = true
  · rw [if_pos hk] at hxy
    subst hxy
    rw [total_booked_replace s.bookings b0 b1 r2.id hnd hmem hid]
    have hc0 : bookingContrib r2.id b0 = b0.seats_reserved := by
      unfold bookingContrib
      rw [if_pos]
      rw [Bool.and_eq_true, beq_iff_eq]
      exact ⟨by rw [h2id, hrideid], hact0⟩
    have hc1 : bookingContrib r2.id b1 = 0 := by
      unfold bookingContrib
      rw [if_neg]
      rw [Bool.and_eq_true]
      rintro ⟨_, hcc⟩
      rw [hact1] at hcc
      cases hcc
    rw [hc0, hc1, h2tot, h2av, h2id]
    have hform := hinv ride hrmem
    omega
  · rw [if_neg hk] at hxy
    subst hxy
    rw [total_booked_replace s.bookings b0 b1 y.id hnd hmem hid]
    have hy2 : y.id ≠ r2.id := by simpa using hk
    have hc0 : bookingContrib y.id b0 = 0 := by
      unfold bookingContrib
      rw [if_neg]
      rw [Bool.and_eq_true, beq_iff_eq]
      rintro ⟨hcc, _⟩
      exact hy2 (by rw [h2id, hrideid, hcc])
    have hc1 : bookingContrib y.id b1 = 0 := by
      unfold bookingContrib
      rw [if_neg]
      rw [Bool.and_eq_true]
      rintro ⟨_, hcc⟩
      rw [hact1] at hcc
      cases hcc
    rw [hc0, hc1]
    have hform := hinv y hy
    omega

/-! ## Claim theorems -/

/-- C4.  For every ride and after every operation of the booking/ride core,
`0 ≤ seats_available ≤ seats_total` holds: every operation that succeeds on a
store whose ride rows satisfy the table CHECK constraints leaves every ride
row satisfying them (and a failed operation rolls back, leaving the store
untouched).  The handlers that could break the bounds are stopped at commit
by the `check_seats_range` constraint of `Ride.__table_args__`. -/
theorem seats_range_invariant (op : Op) (s s' : DBState)
    (h : ridesOk s = true) (hok : op.apply s = .ok s') : ridesOk s' = true := by
  cases op with
  | createRide u nid rt st pr dep now =>
    simp only [Op.apply, create_ride] at hok
    cases hv : validate_ride_create st pr dep now with
    | error e => simp only [hv] at hok; simp at hok
    | ok v =>
      simp only [hv] at hok
      obtain ⟨hchk, rfl⟩ := commitRide_ok hok
      exact all_append_one rideChecks s.rides _ h hchk
  | createBooking u rid sr nid =>
    simp only [Op.apply, create_booking, create_booking_session] at hok
    cases hv : validate_seats sr with
    | error e => simp only [hv] at hok; simp at hok
    | ok v =>
      simp only [hv] at hok
      cases hr : findRide s rid with
      | none => simp only [hr] at hok; simp at hok
      | some ride =>
        simp only [hr] at hok
        split at hok
        · simp at hok
        · split at hok
          · simp at hok
          · split at hok
            · simp at hok
            · split at hok
              · simp at hok
              · obtain ⟨hchk, rfl⟩ := commitRide_ok hok
                exact all_map_replace rideChecks Ride.id s.rides _ h hchk
  | updateRide rid patch u =>
    simp only [Op.apply, update_ride] at hok
    cases hv : validate_update_seats patch with
    | error e => simp only [hv] at hok; simp at hok
    | ok v =>
      simp only [hv] at hok
      cases hr : findRide s rid with
      | none => simp only [hr] at hok; simp at hok
      | some ride =>
        simp only [hr] at hok
        split at hok
        · simp at hok
        · split at hok
          · simp at hok
          · split at hok
            · injection hok with h2
              subst h2
              exact h
            · split at hok
              · simp at hok
              · obtain ⟨hchk, rfl⟩ := commitRide_ok hok
                exact all_map_replace rideChecks Ride.id s.rides _ h hchk
  | updateRideStatus rid target u =>
    simp only [Op.apply, update_ride_status] at hok
    cases hv : validate_ride_status_target target with
    | error e => simp only [hv] at hok; simp at hok
    | ok v =>
      simp only [hv] at hok
      cases hr : findRide s rid with
      | none => simp only [hr] at hok; simp at hok
      | some ride =>
        simp only [hr] at hok
        split at hok
        · simp at hok
        · obtain ⟨hchk, rfl⟩ := commitRide_ok hok
          split
          · exact all_map_replace rideChecks Ride.id s.rides _ h hchk
          · split
            · exact all_map_replace rideChecks Ride.id s.rides _ h hchk
            · exact all_map_replace rideChecks Ride.id s.rides _ h hchk
  | deleteRide rid u =>
    simp only [Op.apply, delete_ride] at hok
    cases hr : findRide s rid with
    | none => simp only [hr] at hok; simp at hok
    | some ride =>
      simp only [hr] at hok
      split at hok
      · simp at hok
      · split at hok
        · obtain ⟨hchk, rfl⟩ := commitRide_ok hok
          exact all_map_replace rideChecks Ride.id s.rides _ h hchk
        · injection hok with h2
          subst h2
          exact all_filter_sub rideChecks _ s.rides h
  | updateBookingStatus bid target u =>
    simp only [Op.apply, update_booking_status] at hok
    cases hbk : findBooking s bid with
    | none => simp only [hbk] at hok; simp at hok
    | some booking =>
      simp only [hbk] at hok
      cases hr : findRide s booking.ride_id with
      | none => simp only [hr] at hok; simp at hok
      | some ride =>
        simp only [hr] at hok
        split at hok
        · simp at hok
        · split at hok
          · simp at hok
          · split at hok
            · simp at hok
            · cases hg : booking_transition_gate booking.status (ride.driver_id == u) target with
              | error e => simp only [hg] at hok; simp at hok
              | ok v =>
                simp only [hg] at hok
                split at hok
                · obtain ⟨hchk, rfl⟩ := commitRide_ok hok
                  exact all_map_replace rideChecks Ride.id s.rides _ h hchk
                · injection hok with h2
                  subst h2
                  exact h
  | cancelBooking bid u =>
    simp only [Op.apply, cancel_booking] at hok
    cases hbk : findBooking s bid with
    | none => simp only [hbk] at hok; simp at hok
    | some booking =>
      simp only [hbk] at hok
      cases hr : findRide s booking.ride_id with
      | none => simp only [hr] at hok; simp at hok
      | some ride =>
        simp only [hr] at hok
        split at hok
        · simp at hok
        · split at hok
          · simp at hok
          · split at hok
            · simp at hok
            · obtain ⟨hchk, rfl⟩ := commitRide_ok hok
              exact all_map_replace rideChecks Ride.id s.rides _ h hchk

/-- C4 witness: on a concrete store (one ride, 3 seats, 2 available, one
pending booking), user 3 books one seat; the resulting store still satisfies
the seat-range checks. -/
theorem seats_range_invariant_witness :
    ridesOk ⟨[⟨0, 1, 0, 3, 1, 10, .«open»⟩],
             [⟨0, 2, 0, 1, 10, .pending⟩, ⟨5, 3, 0, 1, 10, .pending⟩]⟩ = true :=
  seats_range_invariant (.createBooking 3 0 1 5)
    ⟨[⟨0, 1, 0, 3, 2, 10, .«open»⟩], [⟨0, 2, 0, 1, 10, .pending⟩]⟩
    ⟨[⟨0, 1, 0, 3, 1, 10, .«open»⟩],
     [⟨0, 2, 0, 1, 10, .pending⟩, ⟨5, 3, 0, 1, 10, .pending⟩]⟩
    (by decide) rfl

/-- C1 (amended).  The reconciliation invariant
`seats_available = seats_total − Σ(active seats_reserved)` is preserved by
the operations that reconcile seats — createBooking, cancelBooking, and
setBookingStatus with any target other than `completed` — whenever booking
ids are unique (the table's primary key).  It is NOT preserved by
setBookingStatus(completed) or by the ride-level setStatus propagation,
which change booking statuses without touching `seats_available` (see the
counterexample). -/
theorem seats_reconciliation_amended (op : Op) (s s' : DBState)
    (hrec : reconcilingOp op = true)
    (hnd : (s.bookings.map Booking.id).Nodup)
    (hinv : seatsInvariant s = true)
    (hok : op.apply s = .ok s') : seatsInvariant s' = true := by
  cases op with
  | createRide u nid rt st pr dep now => simp [reconcilingOp] at hrec
  | updateRide rid patch u => simp [reconcilingOp] at hrec
  | updateRideStatus rid target u => simp [reconcilingOp] at hrec
  | deleteRide rid u => simp [reconcilingOp] at hrec
  | createBooking u rid sr nid =>
    simp only [Op.apply, create_booking, create_booking_session] at hok
    cases hv : validate_seats sr with
    | error e => simp only [hv] at hok; simp at hok
    | ok v =>
      simp only [hv] at hok
      cases hr : findRide s rid with
      | none => simp only [hr] at hok; simp at hok
      | some ride =>
        simp only [hr] at hok
        split at hok
        · simp at hok
        · split at hok
          · simp at hok
          · split at hok
            · simp at hok
            · split at hok
              · simp at hok
              · obtain ⟨hchk, rfl⟩ := commitRide_ok hok
                refine seatsInvariant_create s ride _ _ hr hinv ?_ ?_ ?_ ?_
                · split <;> split <;> rfl
                · split <;> split <;> rfl
                · split <;> split <;> rfl
                · rfl
  | updateBookingStatus bid target u =>
    have hterm : target ≠ .completed := by simpa [reconcilingOp] using hrec
    simp only [Op.apply, update_booking_status] at hok
    cases hbk : findBooking s bid with
    | none => simp only [hbk] at hok; simp at hok
    | some booking =>
      simp only [hbk] at hok
      cases hr : findRide s booking.ride_id with
      | none => simp only [hr] at hok; simp at hok
      | some ride =>
        simp only [hr] at hok
        have hbmem : booking ∈ s.bookings := List.mem_of_find?_eq_some hbk
        split at hok
        · simp at hok
        · split at hok
          · simp at hok
          · rename_i hnc
            split at hok
            · simp at hok
            · rename_i hnl
              have hact0 : isActive booking.status = true := by
                have h1 : booking.status ≠ .completed := by simpa using hnc
                have h2 : booking.status ≠ .cancelled := by simpa using hnl
                cases hb : booking.status
                · rfl
                · rfl
                · exact absurd hb h1
                · exact absurd hb h2
              cases hg : booking_transition_gate booking.status (ride.driver_id == u) target with
              | error e => simp only [hg] at hok; simp at hok
              | ok v =>
                simp only [hg] at hok
                split at hok
                · rename_i hcanc
                  obtain ⟨hchk, rfl⟩ := commitRide_ok hok
                  simp only [Bool.and_eq_true, Bool.or_eq_true, beq_iff_eq] at hcanc
                  refine seatsInvariant_cancel s booking _ ride _ hnd hinv hbmem hr rfl hact0 ?_ ?_ ?_ ?_
                  · simp [hcanc.1, isActive]
                  · split <;> rfl
                  · split <;> rfl
                  · split <;> rfl
                · rename_i hnotc
                  injection hok with h2
                  subst h2
                  cases target with
                  | pending => simp [booking_transition_gate] at hg
                  | completed => exact absurd rfl hterm
                  | cancelled =>
                    exfalso
                    apply hnotc
                    rw [Bool.and_eq_true]
                    refine ⟨rfl, ?_⟩
                    cases hb : booking.status
                    · rfl
                    · rfl
                    · rw [hb] at hact0; simp [isActive] at hact0
                    · rw [hb] at hact0; simp [isActive] at hact0
                  | confirmed =>
                    have hpend : booking.status = .pending := by
                      simp only [booking_transition_gate] at hg
                      split at hg
                      · simp at hg
                      · split at hg
                        · simp at hg
                        · rename_i hnp
                          simpa using hnp
                    refine seatsInvariant_setBooking_sameContrib s booking _ hnd hinv hbmem rfl ?_
                    intro rid2
                    simp [bookingContrib, hpend, isActive]
  | cancelBooking bid u =>
    simp only [Op.apply, cancel_booking] at hok
    cases hbk : findBooking s bid with
    | none => simp only [hbk] at hok; simp at hok
    | some booking =>
      simp only [hbk] at hok
      cases hr : findRide s booking.ride_id with
      | none => simp only [hr] at hok; simp at hok
      | some ride =>
        simp only [hr] at hok
        have hbmem : booking ∈ s.bookings := List.mem_of_find?_eq_some hbk
        split at hok
        · simp at hok
        · split at hok
          · simp at hok
          · rename_i hnc
            split at hok
            · simp at hok
            · rename_i hnl
              have hact0 : isActive booking.status = true := by
                have h1 : booking.status ≠ .completed := by simpa using hnc
                have h2 : booking.status ≠ .cancelled := by simpa using hnl
                cases hb : booking.status
                · rfl
                · rfl
                · exact absurd hb h1
                · exact absurd hb h2
              obtain ⟨hchk, rfl⟩ := commitRide_ok hok
              refine seatsInvariant_cancel s booking _ ride _ hnd hinv hbmem hr rfl hact0 ?_ ?_ ?_ ?_
              · rfl
              · split <;> rfl
              · split <;> rfl
              · split <;> rfl

/-- C1 (amended) witness: user 3 books one of the two remaining seats on a
concrete reconciled store; the store is still reconciled afterwards. -/
theorem seats_reconciliation_amended_witness :
    seatsInvariant ⟨[⟨0, 1, 0, 3, 1, 10, .«open»⟩],
        [⟨0, 2, 0, 1, 10, .pending⟩, ⟨5, 3, 0, 1, 10, .pending⟩]⟩ = true :=
  seats_reconciliation_amended (.createBooking 3 0 1 5)
    ⟨[⟨0, 1, 0, 3, 2, 10, .«open»⟩], [⟨0, 2, 0, 1, 10, .pending⟩]⟩
    ⟨[⟨0, 1, 0, 3, 1, 10, .«open»⟩],
     [⟨0, 2, 0, 1, 10, .pending⟩, ⟨5, 3, 0, 1, 10, .pending⟩]⟩
    rfl (by decide) (by decide) rfl

theorem except_components_ok {ε α : Type} (R : Except ε α) (a : α) (P : Prop)
    (K L : ε → Prop) (hred : R = .ok a) (hP : P) :
    ((∃ x, R = .ok x) ↔ P) ∧
    (∀ e, R = .error e → K e) ∧
    (∀ e, R = .error e → L e) :=
  ⟨⟨fun _ => hP, fun _ => ⟨a, hred⟩⟩,
   fun _ he => Except.noConfusion (hred ▸ he),
   fun _ he => Except.noConfusion (hred ▸ he)⟩

theorem except_components_error {ε α : Type} (R : Except ε α) (E : ε) (P : Prop)
    (K L : ε → Prop) (hred : R = .error E) (hnP : ¬ P) (hK : K E) (hL : L E) :
    ((∃ x, R = .ok x) ↔ P) ∧
    (∀ e, R = .error e → K e) ∧
    (∀ e, R = .error e → L e) := by
  refine ⟨⟨?_, fun hp => absurd hp hnP⟩, ?_, ?_⟩
  · rintro ⟨x, hx⟩
    rw [hred] at hx
    cases hx
  · intro e he
    rw [hred] at he
    injection he with h2
    rw [← h2]
    exact hK
  · intro e he
    rw [hred] at he
    injection he with h2
    rw [← h2]
    exact hL

theorem update_booking_status_ok_find (s s' : DBState) (bid u : Nat)
    (t : BookingStatus) (b : Booking) (r : Ride)
    (hb : findBooking s bid = some b) (hr : findRide s b.ride_id = some r)
    (hok : update_booking_status s bid t u = .ok s') :
    ∃ b', findBooking s' bid = some b' ∧ b'.status = t := by
  simp only [update_booking_status, hb, hr] at hok
  split at hok
  · simp at hok
  · split at hok
    · simp at hok
    · split at hok
      · simp at hok
      · cases hg : booking_transition_gate b.status (r.driver_id == u) t with
        | error e => simp only [hg] at hok; simp at hok
        | ok v =>
          simp only [hg] at hok
          split at hok
          · obtain ⟨hc2, rfl⟩ := commitRide_ok hok
            exact ⟨_, find_replace Booking.id s.bookings bid b _ hb rfl, rfl⟩
          · injection hok with h2
            subst h2
            exact ⟨_, find_replace Booking.id s.bookings bid b _ hb rfl, rfl⟩

theorem update_booking_cancel_ok (s : DBState) (bid u : Nat) (b : Booking) (r : Ride)
    (hb : findBooking s bid = some b) (hr : findRide s b.ride_id = some r)
    (hpd : (b.passenger_id == u || r.driver_id == u) = true)
    (hact : b.status = .pending ∨ b.status = .confirmed)
    (hpr : 0 ≤ r.price_share) (htot : 0 < r.seats_total)
    (hav0 : 0 ≤ r.seats_available) (hsr : 0 ≤ b.seats_reserved)
    (hfit : r.seats_available + b.seats_reserved ≤ r.seats_total) :
    ∃ s2, update_booking_status s bid .cancelled u = .ok s2 := by
  rcases hact with hbs | hbs
  all_goals
    by_cases hcond : (r.status == RideStatus.full &&
        decide (r.seats_available + b.seats_reserved > 0)) = true
    · have hst : r.status = RideStatus.full := by
        have := (Bool.and_eq_true _ _).mp hcond
        simpa using this.1
      have hgt : r.seats_available + b.seats_reserved > 0 := by
        have := (Bool.and_eq_true _ _).mp hcond
        simpa using this.2
      refine ⟨setRide (setBooking s { b with status := .cancelled })
        { r with seats_available := r.seats_available + b.seats_reserved,
                 status := RideStatus.«open» }, ?_⟩
      simp [update_booking_status, hb, hr, hbs, booking_transition_gate, hpd,
        commitRide, rideChecks, hst, hgt]
      exact ⟨by omega, hfit, htot, hpr⟩
    · rw [Bool.not_eq_true] at hcond
      refine ⟨setRide (setBooking s { b with status := .cancelled })
        { r with seats_available := r.seats_available + b.seats_reserved }, ?_⟩
      simp [update_booking_status, hb, hr, hbs, booking_transition_gate, hpd,
        commitRide, rideChecks, hcond]
      exact ⟨by omega, hfit, htot, hpr⟩

/-- C7 (amended).  For a booking whose acting user is its passenger or its
ride's driver (on a ride row satisfying the table checks, with the freed
seats fitting back into capacity, as in any reconciled store):
setBookingStatus succeeds exactly on the transitions
pending→{confirmed, cancelled} and confirmed→{completed, cancelled} with
confirmed/completed gated to the driver and cancelled open to both roles; a
successful call sets the booking to the target; every rejected request
leaves the store unchanged and fails with PermissionError exactly when a
non-terminal booking's confirmed/completed target is requested by a
non-driver, and with InvalidStateError (HTTP 400) in every other case — not
with InvalidStateError in ALL cases as the claim says. -/
theorem setBookingStatus_transitions_amended (s : DBState) (bid u : Nat)
    (t : BookingStatus) (b : Booking) (r : Ride)
    (hb : findBooking s bid = some b) (hr : findRide s b.ride_id = some r)
    (hacc : b.passenger_id = u ∨ r.driver_id = u)
    (hchk : rideChecks r = true)
    (hsr : 0 ≤ b.seats_reserved)
    (hfit : r.seats_available + b.seats_reserved ≤ r.seats_total) :
    ((∃ s', update_booking_status s bid t u = .ok s') ↔
      (allowedBookingTransition b.status t = true ∧
        (driverOnlyTarget t = true → r.driver_id = u))) ∧
    (∀ s', update_booking_status s bid t u = .ok s' →
      ∃ b', findBooking s' bid = some b' ∧ b'.status = t) ∧
    (∀ e, update_booking_status s bid t u = .error e →
      (isPermissionError e = true ↔
        ((b.status = .pending ∨ b.status = .confirmed) ∧
          driverOnlyTarget t = true ∧ ¬ r.driver_id = u))) ∧
    (∀ e, update_booking_status s bid t u = .error e →
      isPermissionError e = false → isInvalidStateError e = true) := by
  have hpd : (b.passenger_id == u || r.driver_id == u) = true := by
    rcases hacc with h | h <;> simp [h]
  simp only [rideChecks, Bool.and_eq_true, decide_eq_true_eq] at hchk
  obtain ⟨⟨⟨hav0, havt⟩, htot⟩, hpr⟩ := hchk
  have main :
      ((∃ s', update_booking_status s bid t u = .ok s') ↔
        (allowedBookingTransition b.status t = true ∧
          (driverOnlyTarget t = true → r.driver_id = u))) ∧
      (∀ e, update_booking_status s bid t u = .error e →
        (isPermissionError e = true ↔
          ((b.status = .pending ∨ b.status = .confirmed) ∧
            driverOnlyTarget t = true ∧ ¬ r.driver_id = u))) ∧
      (∀ e, update_booking_status s bid t u = .error e →
        isPermissionError e = false → isInvalidStateError e = true) := by
    cases hbs : b.status with
    | completed =>
      have hred : update_booking_status s bid t u =
          .error (.badRequest "Cannot modify completed bookings") := by
        simp [update_booking_status, hb, hr, hbs, hpd]
      refine except_components_error _ _ _ _ _ hred ?_ ?_ ?_
      · rintro ⟨hall, -⟩
        rw [show allowedBookingTransition BookingStatus.completed t = false from rfl] at hall
        simp at hall
      · constructor
        · intro hp; exact absurd hp (by simp [isPermissionError])
        · rintro ⟨h | h, -, -⟩ <;> cases h
      · intro _; rfl
    | cancelled =>
      have hred : update_booking_status s bid t u =
          .error (.badRequest "Cannot modify cancelled bookings") := by
        simp [update_booking_status, hb, hr, hbs, hpd]
      refine except_components_error _ _ _ _ _ hred ?_ ?_ ?_
      · rintro ⟨hall, -⟩
        rw [show allowedBookingTransition BookingStatus.cancelled t = false from rfl] at hall
        simp at hall
      · constructor
        · intro hp; exact absurd hp (by simp [isPermissionError])
        · rintro ⟨h | h, -, -⟩ <;> cases h
      · intro _; rfl
    | pending =>
      cases t with
      | pending =>
        have hred : update_booking_status s bid .pending u =
            .error (.badRequest "Cannot set status back to pending") := by
          simp [update_booking_status, hb, hr, hbs, hpd, booking_transition_gate]
        refine except_components_error _ _ _ _ _ hred ?_ ?_ ?_
        · rintro ⟨hall, -⟩; simp [allowedBookingTransition] at hall
        · constructor
          · intro hp; exact absurd hp (by simp [isPermissionError])
          · rintro ⟨-, hdo, -⟩; simp [driverOnlyTarget] at hdo
        · intro _; rfl
      | confirmed =>
        by_cases hd : r.driver_id = u
        · have hred : update_booking_status s bid .confirmed u =
              .ok (setBooking s { b with status := .confirmed }) := by
            simp [update_booking_status, hb, hr, hbs, booking_transition_gate, hd]
          exact except_components_ok _ _ _ _ _ hred ⟨rfl, fun _ => hd⟩
        · have hp2 : b.passenger_id = u := by
            rcases hacc with h | h
            · exact h
            · exact absurd h hd
          have hred : update_booking_status s bid .confirmed u =
              .error (.forbidden "Only the driver can confirm bookings") := by
            simp [update_booking_status, hb, hr, hbs, booking_transition_gate, hp2,
              beq_eq_false_iff_ne, hd]
          refine except_components_error _ _ _ _ _ hred ?_ ?_ ?_
          · rintro ⟨-, hrole⟩; exact hd (hrole rfl)
          · exact ⟨fun _ => ⟨Or.inl rfl, rfl, hd⟩, fun _ => rfl⟩
          · intro hpf; exact absurd hpf (by simp [isPermissionError])
      | completed =>
        by_cases hd : r.driver_id = u
        · have hred : update_booking_status s bid .completed u =
              .error (.badRequest "Can only complete confirmed bookings") := by
            simp [update_booking_status, hb, hr, hbs, booking_transition_gate, hd]
          refine except_components_error _ _ _ _ _ hred ?_ ?_ ?_
          · rintro ⟨hall, -⟩; simp [allowedBookingTransition] at hall
          · constructor
            · intro hp; exact absurd hp (by simp [isPermissionError])
            · rintro ⟨-, -, hnd2⟩; exact absurd hd hnd2
          · intro _; rfl
        · have hp2 : b.passenger_id = u := by
            rcases hacc with h | h
            · exact h
            · exact absurd h hd
          have hred : update_booking_status s bid .completed u =
              .error (.forbidden "Only the driver can mark bookings as completed") := by
            simp [update_booking_status, hb, hr, hbs, booking_transition_gate, hp2,
              beq_eq_false_iff_ne, hd]
          refine except_components_error _ _ _ _ _ hred ?_ ?_ ?_
          · rintro ⟨hall, -⟩; simp [allowedBookingTransition] at hall
          · exact ⟨fun _ => ⟨Or.inl rfl, rfl, hd⟩, fun _ => rfl⟩
          · intro hpf; exact absurd hpf (by simp [isPermissionError])
      | cancelled =>
        obtain ⟨s2, hred⟩ := update_booking_cancel_ok s bid u b r hb hr hpd
          (Or.inl hbs) hpr htot hav0 hsr hfit
        exact except_components_ok _ _ _ _ _ hred
          ⟨rfl, fun hdo => Bool.noConfusion hdo⟩
    | confirmed =>
      cases t with
      | pending =>
        have hred : update_booking_status s bid .pending u =
            .error (.badRequest "Cannot set status back to pending") := by
          simp [update_booking_status, hb, hr, hbs, hpd, booking_transition_gate]
        refine except_components_error _ _ _ _ _ hred ?_ ?_ ?_
        · rintro ⟨hall, -⟩; simp [allowedBookingTransition] at hall
        · constructor
          · intro hp; exact absurd hp (by simp [isPermissionError])
          · rintro ⟨-, hdo, -⟩; simp [driverOnlyTarget] at hdo
        · intro _; rfl
      | confirmed =>
        by_cases hd : r.driver_id = u
        · have hred : update_booking_status s bid .confirmed u =
              .error (.badRequest "Can only confirm pending bookings") := by
            simp [update_booking_status, hb, hr, hbs, booking_transition_gate, hd]
          refine except_components_error _ _ _ _ _ hred ?_ ?_ ?_
          · rintro ⟨hall, -⟩; simp [allowedBookingTransition] at hall
          · constructor
            · intro hp; exact absurd hp (by simp [isPermissionError])
            · rintro ⟨-, -, hnd2⟩; exact absurd hd hnd2
          · intro _; rfl
        · have hp2 : b.passenger_id = u := by
            rcases hacc with h | h
            · exact h
            · exact absurd h hd
          have hred : update_booking_status s bid .confirmed u =
              .error (.forbidden "Only the driver can confirm bookings") := by
            simp [update_booking_status, hb, hr, hbs, booking_transition_gate, hp2,
              beq_eq_false_iff_ne, hd]
          refine except_components_error _ _ _ _ _ hred ?_ ?_ ?_
          · rintro ⟨hall, -⟩; simp [allowedBookingTransition] at hall
          · exact ⟨fun _ => ⟨Or.inr rfl, rfl, hd⟩, fun _ => rfl⟩
          · intro hpf; exact absurd hpf (by simp [isPermissionError])
      | completed =>
        by_cases hd : r.driver_id = u
        · have hred : update_booking_status s bid .completed u =
              .ok (setBooking s { b with status := .completed }) := by
            simp [update_booking_status, hb, hr, hbs, booking_transition_gate, hd]
          exact except_components_ok _ _ _ _ _ hred ⟨rfl, fun _ => hd⟩
        · have hp2 : b.passenger_id = u := by
            rcases hacc with h | h
            · exact h
            · exact absurd h hd
          have hred : update_booking_status s bid .completed u =
              .error (.forbidden "Only the driver can mark bookings as completed") := by
            simp [update_booking_status, hb, hr, hbs, booking_transition_gate, hp2,
              beq_eq_false_iff_ne, hd]
          refine except_components_error _ _ _ _ _ hred ?_ ?_ ?_
          · rintro ⟨-, hrole⟩; exact hd (hrole rfl)
          · exact ⟨fun _ => ⟨Or.inr rfl, rfl, hd⟩, fun _ => rfl⟩
          · intro hpf; exact absurd hpf (by simp [isPermissionError])
      | cancelled =>
        obtain ⟨s2, hred⟩ := update_booking_cancel_ok s bid u b r hb hr hpd
          (Or.inr hbs) hpr htot hav0 hsr hfit
        exact except_components_ok _ _ _ _ _ hred
          ⟨rfl, fun hdo => Bool.noConfusion hdo⟩
  exact ⟨main.1, fun s' => update_booking_status_ok_find s s' bid u t b r hb hr,
    main.2.1, main.2.2⟩

/-- C7 (amended) witness: on a concrete store, the driver confirms a pending
booking; the success side of the characterisation applies. -/
theorem setBookingStatus_transitions_amended_witness :
    ∃ s', update_booking_status
      ⟨[⟨0, 1, 0, 2, 1, 5, .«open»⟩], [⟨0, 2, 0, 1, 5, .pending⟩]⟩
      0 .confirmed 1 = .ok s' :=
  (setBookingStatus_transitions_amended
    ⟨[⟨0, 1, 0, 2, 1, 5, .«open»⟩], [⟨0, 2, 0, 1, 5, .pending⟩]⟩
    0 1 .confirmed ⟨0, 2, 0, 1, 5, .pending⟩ ⟨0, 1, 0, 2, 1, 5, .«open»⟩
    rfl rfl (Or.inr rfl) (by decide) (by decide) (by decide)).1.mpr
    ⟨rfl, fun _ => rfl⟩

/-- C2 (amended).  Terminality holds at the booking level and for the
ride-update/booking-create paths: setBookingStatus and cancelBooking fail on
a terminal (completed/cancelled) booking, and updateRide and createBooking
fail on a terminal ride — in every case with an error, so the store is
unchanged.  The ride-level setStatus (and deleteRide's soft-cancel), by
contrast, overwrite terminal statuses; see the counterexample. -/
theorem terminal_statuses_amended (s : DBState) (bid u w : Nat)
    (t : BookingStatus) (b : Booking) (rid : Nat) (patch : Option Int)
    (sr : Int) (nid : Nat) (r : Ride)
    (hb : findBooking s bid = some b)
    (hbt : b.status = .completed ∨ b.status = .cancelled)
    (hr : findRide s rid = some r)
    (hrt : r.status = .completed ∨ r.status = .cancelled) :
    (∃ e, update_booking_status s bid t u = .error e) ∧
    (∃ e, cancel_booking s bid u = .error e) ∧
    (∃ e, update_ride s rid patch u = .error e) ∧
    (∃ e, create_booking s w rid sr nid = .error e) := by
  refine ⟨?_, ?_, ?_, ?_⟩
  · cases hr2 : findRide s b.ride_id with
    | none => exact ⟨.notFound "Booking not found",
        by simp [update_booking_status, hb, hr2]⟩
    | some ride =>
      by_cases hacc : (b.passenger_id == u || ride.driver_id == u) = true
      · rcases hbt with ht | ht
        · exact ⟨.badRequest "Cannot modify completed bookings",
            by simp [update_booking_status, hb, hr2, hacc, ht]⟩
        · exact ⟨.badRequest "Cannot modify cancelled bookings",
            by simp [update_booking_status, hb, hr2, hacc, ht]⟩
      · rw [Bool.not_eq_true] at hacc
        exact ⟨.forbidden "You can only update your own bookings or bookings for your rides",
          by simp [update_booking_status, hb, hr2, hacc]⟩
  · cases hr2 : findRide s b.ride_id with
    | none => exact ⟨.notFound "Booking not found",
        by simp [cancel_booking, hb, hr2]⟩
    | some ride =>
      by_cases hacc : (b.passenger_id == u || ride.driver_id == u) = true
      · rcases hbt with ht | ht
        · exact ⟨.badRequest "Cannot cancel completed bookings",
            by simp [cancel_booking, hb, hr2, hacc, ht]⟩
        · exact ⟨.badRequest "Booking is already cancelled",
            by simp [cancel_booking, hb, hr2, hacc, ht]⟩
      · rw [Bool.not_eq_true] at hacc
        exact ⟨.forbidden "You can only cancel your own bookings or bookings for your rides",
          by simp [cancel_booking, hb, hr2, hacc]⟩
  · cases hv : validate_update_seats patch with
    | error e => exact ⟨e, by simp [update_ride, hv]⟩
    | ok v =>
      by_cases hown : (r.driver_id == u) = true
      · rcases hrt with ht | ht
        · exact ⟨.badRequest ("Cannot update " ++ rideStatusText r.status ++ " rides"),
            by simp [update_ride, hv, hr, hown, ht]⟩
        · exact ⟨.badRequest ("Cannot update " ++ rideStatusText r.status ++ " rides"),
            by simp [update_ride, hv, hr, hown, ht]⟩
      · rw [Bool.not_eq_true] at hown
        exact ⟨.forbidden "You can only update your own rides",
          by simp [update_ride, hv, hr, hown]⟩
  · cases hv : validate_seats sr with
    | error e => exact ⟨e, by simp [create_booking, create_booking_session, hv]⟩
    | ok v =>
      by_cases hself : (r.driver_id == w) = true
      · exact ⟨.badRequest "You cannot book your own ride",
          by simp [create_booking, create_booking_session, hv, hr, hself]⟩
      · rw [Bool.not_eq_true] at hself
        rcases hrt with ht | ht
        · exact ⟨.badRequest ("Cannot book a " ++ rideStatusText r.status ++ " ride"),
            by simp [create_booking, create_booking_session, hv, hr, hself, ht]⟩
        · exact ⟨.badRequest ("Cannot book a " ++ rideStatusText r.status ++ " ride"),
            by simp [create_booking, create_booking_session, hv, hr, hself, ht]⟩

/-- C2 (amended) witness: on a store with a completed ride carrying a
cancelled booking, a booking status change, a booking cancellation, a ride
update and a booking creation are all rejected. -/
theorem terminal_statuses_amended_witness :
    (∃ e, update_booking_status
      ⟨[⟨0, 1, 0, 2, 2, 5, .completed⟩], [⟨0, 2, 0, 1, 5, .cancelled⟩]⟩
      0 .confirmed 2 = .error e) ∧
    (∃ e, cancel_booking
      ⟨[⟨0, 1, 0, 2, 2, 5, .completed⟩], [⟨0, 2, 0, 1, 5, .cancelled⟩]⟩
      0 2 = .error e) ∧
    (∃ e, update_ride
      ⟨[⟨0, 1, 0, 2, 2, 5, .completed⟩], [⟨0, 2, 0, 1, 5, .cancelled⟩]⟩
      0 none 2 = .error e) ∧
    (∃ e, create_booking
      ⟨[⟨0, 1, 0, 2, 2, 5, .completed⟩], [⟨0, 2, 0, 1, 5, .cancelled⟩]⟩
      3 0 1 9 = .error e) :=
  terminal_statuses_amended
    ⟨[⟨0, 1, 0, 2, 2, 5, .completed⟩], [⟨0, 2, 0, 1, 5, .cancelled⟩]⟩
    0 2 3 .confirmed ⟨0, 2, 0, 1, 5, .cancelled⟩ 0 none 1 9
    ⟨0, 1, 0, 2, 2, 5, .completed⟩
    rfl (Or.inr rfl) rfl (Or.inl rfl)

/-- C5 (amended).  deleteRide physically deletes the ride only when it has
zero bookings (cascading away its — empty — booking set); when at least one
booking exists the request still succeeds, soft-cancelling the ride
(`status := cancelled`) instead of failing with ConflictError. -/
theorem delete_ride_amended (s : DBState) (rid u : Nat) (r : Ride)
    (hr : findRide s rid = some r) (hown : r.driver_id = u)
    (hchk : rideChecks r = true) :
    ((s.bookings.filter (fun b => b.ride_id == rid)).isEmpty = false →
      delete_ride s rid u = .ok (setRide s { r with status := .cancelled })) ∧
    ((s.bookings.filter (fun b => b.ride_id == rid)).isEmpty = true →
      delete_ride s rid u =
        .ok ⟨s.rides.filter (fun x => !(x.id == rid)),
             s.bookings.filter (fun b => !(b.ride_id == rid))⟩) := by
  constructor
  · intro hne
    simp [delete_ride, hr, hown, hne, commitRide]
    exact hchk
  · intro hemp
    simp [delete_ride, hr, hown, hemp]

/-- C5 (amended) witness: deleting a ride that has one booking succeeds and
soft-cancels it. -/
theorem delete_ride_amended_witness :
    delete_ride ⟨[⟨4, 9, 0, 2, 1, 7, .«open»⟩], [⟨3, 8, 4, 1, 7, .pending⟩]⟩ 4 9 =
      .ok (setRide ⟨[⟨4, 9, 0, 2, 1, 7, .«open»⟩], [⟨3, 8, 4, 1, 7, .pending⟩]⟩
        { (⟨4, 9, 0, 2, 1, 7, .«open»⟩ : Ride) with status := .cancelled }) :=
  (delete_ride_amended ⟨[⟨4, 9, 0, 2, 1, 7, .«open»⟩], [⟨3, 8, 4, 1, 7, .pending⟩]⟩
    4 9 ⟨4, 9, 0, 2, 1, 7, .«open»⟩ rfl rfl (by decide)).1 rfl

/-- C6 (amended).  For a bookable ride (non-terminal, not the booker's own,
no active booking by the booker, ride row satisfying the table checks) whose
`seats_available` additionally lies in the schema's bookable range 1..10:
createBooking of exactly `seats_available` seats succeeds and leaves the
ride with `seats_available = 0` and status `full`, while createBooking of
`seats_available + 1` seats fails with a validation rejection (the handler's
seat check, or the pydantic 10-seat cap when seats_available = 10), leaving
the store unchanged.  The range condition is forced: with
`seats_available = 0` the "book exactly the remaining seats" request is
itself rejected by the schema (see the counterexample). -/
theorem createBooking_boundary_amended (s : DBState) (u rid nid : Nat) (r : Ride)
    (hr : findRide s rid = some r)
    (hterm : r.status ≠ .completed ∧ r.status ≠ .cancelled)
    (hself : r.driver_id ≠ u)
    (hdup : s.bookings.any
      (fun b => b.ride_id == rid && b.passenger_id == u && isActive b.status) = false)
    (hchk : rideChecks r = true)
    (hlo : 1 ≤ r.seats_available) (hhi : r.seats_available ≤ 10) :
    (∃ s' r', create_booking s u rid r.seats_available nid = .ok s' ∧
      findRide s' rid = some r' ∧ r'.seats_available = 0 ∧ r'.status = .full) ∧
    (∃ d, create_booking s u rid (r.seats_available + 1) nid = .error (.badRequest d) ∨
      create_booking s u rid (r.seats_available + 1) nid = .error (.unprocessable d)) := by
  simp only [rideChecks, Bool.and_eq_true, decide_eq_true_eq] at hchk
  obtain ⟨⟨⟨hav0, havt⟩, htot⟩, hpr⟩ := hchk
  have hsf : (r.driver_id == u) = false := by
    rw [beq_eq_false_iff_ne]; exact hself
  have ht1 : (r.status == RideStatus.completed) = false := by
    rw [beq_eq_false_iff_ne]; exact hterm.1
  have ht2 : (r.status == RideStatus.cancelled) = false := by
    rw [beq_eq_false_iff_ne]; exact hterm.2
  constructor
  · have hred : create_booking s u rid r.seats_available nid =
        .ok (addBooking (setRide s { r with seats_available := 0, status := .full })
          ⟨nid, u, rid, r.seats_available, r.seats_available * r.price_share, .pending⟩) := by
      have hv : validate_seats r.seats_available = .ok () := by
        unfold validate_seats
        rw [if_neg (by omega), if_neg (by omega)]
      simp [create_booking, create_booking_session, hv, hr, hsf, ht1, ht2, hdup,
        commitRide, rideChecks, lt_irrefl, sub_self]
      omega
    refine ⟨_, { r with seats_available := 0, status := .full }, hred, ?_, rfl, rfl⟩
    exact find_replace Ride.id s.rides rid r _ hr rfl
  · by_cases hten : r.seats_available + 1 > 10
    · refine ⟨"Cannot reserve more than 10 seats", Or.inr ?_⟩
      have hv : validate_seats (r.seats_available + 1) =
          .error (.unprocessable "Cannot reserve more than 10 seats") := by
        unfold validate_seats
        rw [if_neg (by omega), if_pos (by omega)]
      simp [create_booking, create_booking_session, hv]
    · refine ⟨"Not enough seats available. Requested: " ++
        toString (r.seats_available + 1) ++ ", Available: " ++
        toString r.seats_available, Or.inl ?_⟩
      have hv : validate_seats (r.seats_available + 1) = .ok () := by
        unfold validate_seats
        rw [if_neg (by omega), if_neg (by omega)]
      have hgt : r.seats_available + 1 > r.seats_available := by omega
      simp [create_booking, create_booking_session, hv, hr, hsf, ht1, ht2, hdup, hgt]

/-- C6 (amended) witness: on a concrete open 3-seat ride with 2 seats left,
booking exactly 2 seats succeeds and fills the ride, and booking 3 seats is
rejected. -/
theorem createBooking_boundary_amended_witness :
    (∃ s' r', create_booking
        ⟨[⟨0, 1, 0, 3, 2, 5, .«open»⟩], [⟨0, 2, 0, 1, 5, .pending⟩]⟩
        3 0 2 7 = .ok s' ∧
      findRide s' 0 = some r' ∧ r'.seats_available = 0 ∧ r'.status = .full) ∧
    (∃ d, create_booking
        ⟨[⟨0, 1, 0, 3, 2, 5, .«open»⟩], [⟨0, 2, 0, 1, 5, .pending⟩]⟩
        3 0 3 7 = .error (.badRequest d) ∨
      create_booking
        ⟨[⟨0, 1, 0, 3, 2, 5, .«open»⟩], [⟨0, 2, 0, 1, 5, .pending⟩]⟩
        3 0 3 7 = .error (.unprocessable d)) :=
  createBooking_boundary_amended
    ⟨[⟨0, 1, 0, 3, 2, 5, .«open»⟩], [⟨0, 2, 0, 1, 5, .pending⟩]⟩
    3 0 7 ⟨0, 1, 0, 3, 2, 5, .«open»⟩ rfl
    ⟨by decide, by decide⟩ (by decide) (by decide) (by decide)
    (by decide) (by decide)

/-- C9.  For a ride with at least one booking: delete_ride succeeds,
sets the ride's status to cancelled and leaves every booking row — in
particular every booking status — untouched; whereas update_ride_status with
target cancelled sets the status of every booking of the ride to cancelled. -/
theorem delete_vs_cancel_on_bookings (s : DBState) (rid u : Nat) (r : Ride)
    (hr : findRide s rid = some r) (hown : r.driver_id = u)
    (hchk : rideChecks r = true)
    (hbk : (s.bookings.filter (fun b => b.ride_id == rid)).isEmpty = false) :
    (delete_ride s rid u = .ok (setRide s { r with status := .cancelled }) ∧
      (setRide s { r with status := .cancelled }).bookings = s.bookings) ∧
    (∀ s', update_ride_status s rid .cancelled u = .ok s' →
      ∀ b2 ∈ s'.bookings, b2.ride_id = rid → b2.status = .cancelled) := by
  refine ⟨⟨?_, rfl⟩, ?_⟩
  · simp [delete_ride, hr, hown, hbk, commitRide]
    exact hchk
  · intro s' hok b2 hmem hbr
    have hval : validate_ride_status_target RideStatus.cancelled = .ok () := rfl
    simp only [update_ride_status, hval, hr] at hok
    rw [if_neg (by simp [hown])] at hok
    obtain ⟨hc, rfl⟩ := commitRide_ok hok
    have hmem2 : b2 ∈ List.map
        (fun b => if (b.ride_id == rid) = true then
          { b with status := BookingStatus.cancelled } else b) s.bookings := hmem
    rw [List.mem_map] at hmem2
    obtain ⟨y, hy, hxy⟩ := hmem2
    by_cases hk : (y.ride_id == rid) = true
    · rw [if_pos hk] at hxy
      subst hxy
      rfl
    · rw [if_neg hk] at hxy
      subst hxy
      exact absurd hbr (by simpa using hk)

/-- C9 witness: on a concrete full ride with one pending booking, deletion
soft-cancels the ride and the booking list is unchanged. -/
theorem delete_vs_cancel_on_bookings_witness :
    delete_ride ⟨[⟨2, 5, 0, 1, 0, 6, .full⟩], [⟨6, 7, 2, 1, 6, .pending⟩]⟩ 2 5 =
      .ok (setRide ⟨[⟨2, 5, 0, 1, 0, 6, .full⟩], [⟨6, 7, 2, 1, 6, .pending⟩]⟩
        { (⟨2, 5, 0, 1, 0, 6, .full⟩ : Ride) with status := .cancelled }) ∧
    (setRide ⟨[⟨2, 5, 0, 1, 0, 6, .full⟩], [⟨6, 7, 2, 1, 6, .pending⟩]⟩
        { (⟨2, 5, 0, 1, 0, 6, .full⟩ : Ride) with status := .cancelled }).bookings =
      ([⟨6, 7, 2, 1, 6, .pending⟩] : List Booking) :=
  (delete_vs_cancel_on_bookings
    ⟨[⟨2, 5, 0, 1, 0, 6, .full⟩], [⟨6, 7, 2, 1, 6, .pending⟩]⟩
    2 5 ⟨2, 5, 0, 1, 0, 6, .full⟩ rfl rfl (by decide) rfl).1

/-- C10.  The ride kind is not stored: every read path derives
`ride_type = "request"` exactly when the current status is `requested`
(the same expression serves convert_ride_to_response, search_rides and the
nearby search), so after the first successful booking moves a request ride's
status to open or full, the ride is reported as an "offer". -/
theorem ride_type_not_stored (s s' : DBState) (u rid : Nat) (sr : Int) (nid : Nat)
    (r : Ride) (hr : findRide s rid = some r) (hreq : r.status = .requested)
    (hok : create_booking s u rid sr nid = .ok s') :
    (∀ x : Ride, ride_type x = "request" ↔ x.status = .requested) ∧
    (∃ r', findRide s' rid = some r' ∧ ride_type r' = "offer") := by
  constructor
  · intro x
    unfold ride_type
    by_cases hx : (x.status == RideStatus.requested) = true
    · rw [if_pos hx]
      rw [beq_iff_eq] at hx
      exact ⟨fun _ => hx, fun _ => rfl⟩
    · rw [if_neg hx]
      rw [Bool.not_eq_true, beq_eq_false_iff_ne] at hx
      exact ⟨fun hco => absurd hco (by decide), fun hxx => absurd hxx hx⟩
  · simp only [create_booking, create_booking_session] at hok
    cases hv : validate_seats sr with
    | error e => simp only [hv] at hok; simp at hok
    | ok v =>
      simp only [hv, hr] at hok
      split at hok
      · simp at hok
      · split at hok
        · simp at hok
        · split at hok
          · simp at hok
          · split at hok
            · simp at hok
            · obtain ⟨hchk, rfl⟩ := commitRide_ok hok
              refine ⟨_, find_replace Ride.id s.rides rid r _ hr ?_, ?_⟩
              · split <;> split <;> rfl
              · by_cases hA : r.seats_available - sr ≤ 0
                · rw [if_pos hA]
                  simp [ride_type]
                · rw [if_neg hA]
                  have hgt : r.seats_available - sr > 0 := by omega
                  simp [ride_type, hreq, hgt]

/-- C10 witness: a concrete request ride booked once is reported as an
offer afterwards. -/
theorem ride_type_not_stored_witness :
    ∃ r', findRide ⟨[⟨0, 1, 0, 2, 1, 5, .«open»⟩], [⟨7, 2, 0, 1, 5, .pending⟩]⟩ 0 =
        some r' ∧ ride_type r' = "offer" :=
  (ride_type_not_stored
    ⟨[⟨0, 1, 0, 2, 2, 5, .requested⟩], []⟩
    ⟨[⟨0, 1, 0, 2, 1, 5, .«open»⟩], [⟨7, 2, 0, 1, 5, .pending⟩]⟩
    2 0 1 7 ⟨0, 1, 0, 2, 2, 5, .requested⟩ rfl rfl rfl).2

/-! ## Counterexamples and code-bug evaluations (closed, concrete) -/

/-- C1 (counterexample).  The reconciliation invariant
`seats_available = seats_total − Σ(active seats_reserved)` does NOT survive
every booking/ride operation: starting from a state satisfying it (one ride
with 2 seats, 1 available; one confirmed booking of 1 seat), the driver
marking that booking `completed` succeeds but leaves `seats_available = 1`
while the active sum drops to 0, so `1 ≠ 2 − 0` and the invariant is false
afterwards (update_booking_status restores seats only on cancellation). -/
theorem seats_reconciliation_counterexample :
    seatsInvariant ⟨[⟨0, 1, 0, 2, 1, 5, .«open»⟩], [⟨0, 2, 0, 1, 5, .confirmed⟩]⟩ = true ∧
    update_booking_status ⟨[⟨0, 1, 0, 2, 1, 5, .«open»⟩], [⟨0, 2, 0, 1, 5, .confirmed⟩]⟩
        0 .completed 1 =
      .ok ⟨[⟨0, 1, 0, 2, 1, 5, .«open»⟩], [⟨0, 2, 0, 1, 5, .completed⟩]⟩ ∧
    seatsInvariant ⟨[⟨0, 1, 0, 2, 1, 5, .«open»⟩], [⟨0, 2, 0, 1, 5, .completed⟩]⟩ = false :=
  ⟨rfl, rfl, rfl⟩

/-- C2 (counterexample).  Terminal statuses are not final: on a `cancelled`
ride (2 seats, 2 available, driver 1) carrying a `cancelled` booking, the
owner's `PATCH /rides/0/status` to `completed` succeeds, moving the terminal
ride status `cancelled → completed` and overwriting the terminal booking
status `cancelled → completed` as well (update_ride_status never checks the
current ride or booking status). -/
theorem terminal_statuses_counterexample :
    update_ride_status ⟨[⟨0, 1, 0, 2, 2, 5, .cancelled⟩], [⟨0, 2, 0, 1, 5, .cancelled⟩]⟩
        0 .completed 1 =
      .ok ⟨[⟨0, 1, 0, 2, 2, 5, .completed⟩], [⟨0, 2, 0, 1, 5, .completed⟩]⟩ :=
  rfl

/-- C3 (code bug evaluation).  A ride with `seats_total = 3`,
`seats_available = 1` (2 seats held by a confirmed booking) is patched to
`seats_total = 1`.  The spec demands `ValidationError` because
`1 − (3 − 1) = −1 < 0`; the code instead succeeds and leaves
`seats_available = 1`: the handler's `setattr` loop has already written the
new total, so `seats_booked = ride.seats_total − ride.seats_available` reads
`1 − 1 = 0` and the recomputation returns the old availability, never
negative. -/
theorem update_ride_seats_recompute_bug :
    update_ride ⟨[⟨0, 1, 0, 3, 1, 5, .«open»⟩], [⟨0, 2, 0, 2, 10, .confirmed⟩]⟩
        0 (some 1) 1 =
      .ok ⟨[⟨0, 1, 0, 1, 1, 5, .«open»⟩], [⟨0, 2, 0, 2, 10, .confirmed⟩]⟩ :=
  rfl

/-- C5 (counterexample).  A deletion request for a ride that has a booking
does not fail with `ConflictError`: it succeeds (HTTP 204), soft-cancelling
the ride (`status := cancelled`) and leaving the booking in place. -/
theorem delete_ride_counterexample :
    delete_ride ⟨[⟨0, 1, 0, 1, 0, 5, .full⟩], [⟨0, 2, 0, 1, 5, .pending⟩]⟩ 0 1 =
      .ok ⟨[⟨0, 1, 0, 1, 0, 5, .cancelled⟩], [⟨0, 2, 0, 1, 5, .pending⟩]⟩ :=
  rfl

/-- C6 (counterexample).  A bookable ride per the claim's own parenthesis
(status `full`, hence non-terminal; driver 1 ≠ booker 3; booker 3 has no
booking at all) with `seats_available = 0`: booking exactly
`seats_available = 0` seats does not succeed — pydantic rejects any
`seats_reserved < 1` before the handler runs — refuting the claim's success
clause at this input. -/
theorem createBooking_boundary_counterexample :
    findRide ⟨[⟨0, 1, 0, 1, 0, 5, .full⟩], [⟨0, 2, 0, 1, 5, .pending⟩]⟩ 0 =
      some ⟨0, 1, 0, 1, 0, 5, .full⟩ ∧
    create_booking ⟨[⟨0, 1, 0, 1, 0, 5, .full⟩], [⟨0, 2, 0, 1, 5, .pending⟩]⟩ 3 0 0 7 =
      .error (.unprocessable "Must reserve at least 1 seat") :=
  ⟨rfl, rfl⟩

/-- C7 (counterexample).  The passenger (user 2) of a pending booking
requests target `completed`, a transition outside the table: the code
answers HTTP 403 ("Only the driver can mark bookings as completed"), i.e. a
`PermissionError`, not the `InvalidStateError` (HTTP 400) the claim asserts
for every rejected request. -/
theorem setBookingStatus_error_kind_counterexample :
    update_booking_status ⟨[⟨0, 1, 0, 1, 0, 5, .full⟩], [⟨0, 2, 0, 1, 5, .pending⟩]⟩
        0 .completed 2 =
      .error (.forbidden "Only the driver can mark bookings as completed") ∧
    isInvalidStateError (.forbidden "Only the driver can mark bookings as completed")
      = false :=
  ⟨rfl, rfl⟩

/-- C8 (code bug evaluation).  `create_booking` takes no row lock and has no
retry loop, so two concurrent sessions may both SELECT the ride before
either commits.  On a 1-seat ride with 1 seat available, users 2 and 3 each
book 1 seat with both reads taken at the initial state: BOTH requests
succeed (the claim demands that exactly one does), the second write is a
lost update computed from its stale snapshot, and the resulting state holds
2 active reserved seats on a ride whose `seats_total` is 1. -/
theorem concurrent_last_seat_overbooking :
    create_booking_session ⟨[⟨0, 1, 0, 1, 1, 5, .«open»⟩], []⟩
        ⟨[⟨0, 1, 0, 1, 1, 5, .«open»⟩], []⟩ 2 0 1 10 =
      .ok ⟨[⟨0, 1, 0, 1, 0, 5, .full⟩], [⟨10, 2, 0, 1, 5, .pending⟩]⟩ ∧
    create_booking_session ⟨[⟨0, 1, 0, 1, 1, 5, .«open»⟩], []⟩
        ⟨[⟨0, 1, 0, 1, 0, 5, .full⟩], [⟨10, 2, 0, 1, 5, .pending⟩]⟩ 3 0 1 11 =
      .ok ⟨[⟨0, 1, 0, 1, 0, 5, .full⟩],
           [⟨10, 2, 0, 1, 5, .pending⟩, ⟨11, 3, 0, 1, 5, .pending⟩]⟩ ∧
    total_booked [⟨10, 2, 0, 1, 5, .pending⟩, ⟨11, 3, 0, 1, 5, .pending⟩] 0 = 2 ∧
    (1 : Int) < 2 :=
  ⟨rfl, rfl, rfl, by decide⟩

end FareShare
